import Mathlib

/-
Verification of the go-k8s-http-api repository: a shallow embedding of the
deployments handler (internal/handlers, list / get-replicas / set-replicas),
the healthz handler (internal/handlers/healthz.go) and the TLS server
configuration built in cmd/main.go, together with theorems settling the
behavioural claims about them.
-/

namespace K8sApi

/-- A Kubernetes Deployment as this service sees it: object metadata
(name, namespace) together with the optional spec.replicas field, which in
the source is a nullable pointer (`*int32`), rendered here as `Option Int`.
The field `nspace` renders the Go field `Namespace`, since `namespace` is a
Lean keyword. -/
structure Deployment where
  name : String
  nspace : String
  replicas : Option Int
  deriving DecidableEq, Repr

/-- DeploymentResponse is the response object for the deployments API:
the projection of a Deployment to its name and namespace. -/
structure DeploymentResponse where
  name : String
  nspace : String
  deriving DecidableEq, Repr

/-- Replicas is the request / response object for the deployments API.
In Go the field is `Replicas *int32`; a body whose JSON lacks a usable
`replicas` key decodes to the nil pointer, i.e. `none`. -/
structure Replicas where
  replicas : Option Int
  deriving DecidableEq, Repr

/-- APIError is the response object for cases when an error occurs. -/
structure APIError where
  message : String
  deriving DecidableEq, Repr

/-- Validate validates the Replicas object: `some msg` is the error message
returned by the Go method, `none` means valid. The nil check comes first;
the sign of the pointee is only examined in the else-branch. -/
def Replicas.Validate (r : Replicas) : Option String :=
  match r.replicas with
  | none => some "replicas field is required"
  | some n =>
    if n < 0 then some "replicas field must be greater than or equal to 0"
    else none

/-- The object store backing the handlers (the cached controller-runtime
client, an external collaborator of this repository). `deployments` holds
the store contents in the iteration order of the store; the three flags inject
the failure modes of its Get / List / Patch calls, which the handlers only
observe as a non-nil error. -/
structure Store where
  deployments : List Deployment
  getFails : Bool
  listFails : Bool
  patchFails : Bool
  deriving DecidableEq, Repr

/-- Modelled from the external object-store contract (spec section 6):
`get(namespace, name) -> DeploymentObject | NotFound`, a keyed lookup.
`none` covers both not-found and any other retrieval error; the handler
does not distinguish them. -/
def Store.get (s : Store) (nspace name : String) : Option Deployment :=
  if s.getFails then none
  else s.deployments.find? (fun d => d.nspace == nspace && d.name == name)

/-- Modelled from the external object-store contract (spec section 6):
`list(namespace?) -> sequence<DeploymentObject>`: the deployments of the
given namespace (or all of them when unscoped) in the iteration order of
the store; `none` is a failed List call. -/
def Store.list (s : Store) (nspace : Option String) : Option (List Deployment) :=
  if s.listFails then none
  else
    match nspace with
    | some ns => some (s.deployments.filter (fun d => d.nspace == ns))
    | none => some s.deployments

/-- Modelled from the external object-store contract (spec section 6): the
merge-patch issued by set-replicas changes only the replica count of the
object keyed by namespace+name. -/
def Store.patch (s : Store) (nspace name : String) (r : Option Int) : Store :=
  { s with
    deployments := s.deployments.map
      (fun d =>
        if d.nspace == nspace && d.name == name then
          { d with replicas := r }
        else d) }

/-- The JSON value a handler encodes into the response body, in structured
form (the handlers build exactly these shapes with encoding/json):
nothing at all, an APIError envelope, a DeploymentResponseWithReplicas,
a list of DeploymentResponse, or a healthResponse. -/
inductive ResponseBody where
  | empty : ResponseBody
  | apiError (message : String) : ResponseBody
  | replicaView (name nspace : String) (replicas : Option Int) : ResponseBody
  | deployments (items : List DeploymentResponse) : ResponseBody
  | health (status : String) : ResponseBody
  deriving DecidableEq, Repr

/-- An HTTP response as a handler produces it: the written status code and
the encoded body. -/
structure HttpResponse where
  status : Nat
  body : ResponseBody
  deriving DecidableEq, Repr

/-- The Go strings.Split for a one-character separator, on the character
list of the string: splitting the empty string yields one empty segment,
and every occurrence of the separator starts a new segment. (Structurally
recursive so that it evaluates in the kernel.) -/
def splitOnChar (sep : Char) : List Char → List (List Char)
  | [] => [[]]
  | c :: cs =>
    match splitOnChar sep cs, decide (c = sep) with
    | rest, true => [] :: rest
    | [], false => [[c]]
    | r :: rs, false => (c :: r) :: rs

/-- strings.Split(path, "/"): the slash-delimited segments of the path. -/
def splitPath (path : String) : List String :=
  (splitOnChar '/' path.data).map String.mk

/-- parseNamespaceAndDeploymentNameFromURL parses the namespace and
deployment name from the URL path: split on "/", and if fewer than 4
segments result, return empty strings; otherwise segments 2 and 3. -/
def parseNamespaceAndDeploymentNameFromURL (path : String) : String × String :=
  let pathSegments := splitPath path
  if pathSegments.length < 4 then ("", "")
  else (pathSegments.getD 2 "", pathSegments.getD 3 "")

/-- getDeployment returns a deployment object from the client (either from
the cache or from the API); a nil result is any lookup error. -/
def getDeployment (s : Store) (nspace deployment : String) : Option Deployment :=
  s.get nspace deployment

/-- generateListDeploymentsResponse generates a list of DeploymentResponse
objects from a DeploymentList, in order. -/
def generateListDeploymentsResponse (items : List Deployment) : List DeploymentResponse :=
  items.map (fun d => ⟨d.name, d.nspace⟩)

/-- The value `r.URL.Query().Get` returns for the "namespace" key: the
parameter value when the key is present in the query (possibly the empty
string), and the empty string when the key is absent. -/
def queryGet (param : Option String) : String := param.getD ""

/-- ListDeployments handles the "/deployments" endpoint. `param` is the
"namespace" query parameter: `some v` when the URL query carries
`namespace=v`, `none` when it is absent. The handler branches on whether
`Query().Get` returned a non-empty string. -/
def ListDeployments (s : Store) (param : Option String) : HttpResponse :=
  let nspace := queryGet param
  if nspace ≠ "" then
    match s.list (some nspace) with
    | none => ⟨500, ResponseBody.empty⟩
    | some dl => ⟨200, ResponseBody.deployments (generateListDeploymentsResponse dl)⟩
  else
    match s.list none with
    | none => ⟨500, ResponseBody.empty⟩
    | some dl => ⟨200, ResponseBody.deployments (generateListDeploymentsResponse dl)⟩

/-- GetDeploymentReplicas handles the
"/deployments/(namespace)/(deployment)/replicas" endpoint for GET. -/
def GetDeploymentReplicas (s : Store) (path : String) : HttpResponse :=
  let nspace := (parseNamespaceAndDeploymentNameFromURL path).1
  let deployment := (parseNamespaceAndDeploymentNameFromURL path).2
  match getDeployment s nspace deployment with
  | none =>
    ⟨404, ResponseBody.apiError
      ("Error getting deployment " ++ deployment ++ " in namespace " ++ nspace)⟩
  | some d =>
    ⟨200, ResponseBody.replicaView deployment nspace d.replicas⟩

/-- The outcome of `json.NewDecoder(r.Body).Decode(&rep)`: either a decode
error carrying its message, or a decoded Replicas value (whose field is
`none` when the body has no usable "replicas" key). -/
inductive DecodeResult where
  | malformed (cause : String) : DecodeResult
  | decoded (rep : Replicas) : DecodeResult
  deriving DecidableEq, Repr

/-- What a SetDeploymentReplicas call produced: the HTTP response, the
resulting store state, and whether the Patch call was issued. -/
structure SetResult where
  response : HttpResponse
  store : Store
  patchInvoked : Bool
  deriving DecidableEq, Repr

/-- SetDeploymentReplicas handles the
"/deployments/(namespace)/(deployment)/replicas" endpoint for PUT:
existence lookup first, then body decode, then validation, then the
merge-patch of the replicas field; the success response reports the
replicas value just written. -/
def SetDeploymentReplicas (s : Store) (path : String) (body : DecodeResult) : SetResult :=
  let nspace := (parseNamespaceAndDeploymentNameFromURL path).1
  let deployment := (parseNamespaceAndDeploymentNameFromURL path).2
  match getDeployment s nspace deployment with
  | none =>
    ⟨⟨404, ResponseBody.apiError
      ("Error getting deployment " ++ deployment ++ " in namespace " ++ nspace)⟩, s, false⟩
  | some _ =>
    match body with
    | DecodeResult.malformed cause =>
      ⟨⟨400, ResponseBody.apiError ("Error parsing request body: " ++ cause)⟩, s, false⟩
    | DecodeResult.decoded rep =>
      match rep.Validate with
      | some msg =>
        ⟨⟨400, ResponseBody.apiError ("Validation error: " ++ msg)⟩, s, false⟩
      | none =>
        if s.patchFails then
          ⟨⟨500, ResponseBody.apiError
            ("Error patching deployment " ++ deployment ++ " in namespace " ++ nspace)⟩,
            s, true⟩
        else
          ⟨⟨200, ResponseBody.replicaView deployment nspace rep.replicas⟩,
            s.patch nspace deployment rep.replicas, true⟩

/-- What the upstream healthz probe yielded, as the handler observes it:
`result.Error()` non-nil (transport or API error), `result.Raw()` failing
(body unreadable), or the raw body bytes. -/
inductive UpstreamResult where
  | transportError (cause : String) : UpstreamResult
  | bodyUnreadable (cause : String) : UpstreamResult
  | body (raw : String) : UpstreamResult
  deriving DecidableEq, Repr

/-- ServeHTTP of HealthzHandler: proxy the upstream /healthz result into a
healthResponse with the appropriate status code. -/
def HealthzHandler.ServeHTTP : UpstreamResult → HttpResponse
  | UpstreamResult.transportError cause =>
    ⟨503, ResponseBody.health ("Error: " ++ cause)⟩
  | UpstreamResult.bodyUnreadable cause =>
    ⟨500, ResponseBody.health ("Error reading response: " ++ cause)⟩
  | UpstreamResult.body raw =>
    if raw = "ok" then ⟨200, ResponseBody.health "ok"⟩
    else ⟨503, ResponseBody.health ("unhealthy: " ++ raw)⟩

/-- The client-certificate policies of crypto/tls (ClientAuthType). -/
inductive ClientAuthType where
  | noClientCert : ClientAuthType
  | requestClientCert : ClientAuthType
  | requireAnyClientCert : ClientAuthType
  | verifyClientCertIfGiven : ClientAuthType
  | requireAndVerifyClientCert : ClientAuthType
  deriving DecidableEq, Repr

/-- crypto/tls protocol version codes. -/
def VersionTLS10 : Nat := 0x0301

/-- crypto/tls protocol version codes. -/
def VersionTLS11 : Nat := 0x0302

/-- crypto/tls protocol version codes. -/
def VersionTLS12 : Nat := 0x0303

/-- crypto/tls protocol version codes. -/
def VersionTLS13 : Nat := 0x0304

/-- The protocol versions the Go TLS stack supports, TLS 1.3 being the
strongest. -/
def supportedTLSVersions : List Nat :=
  [VersionTLS10, VersionTLS11, VersionTLS12, VersionTLS13]

/-- The fields of tls.Config that cmd/main.go sets: the certificate chain
presented by the server, the client-authentication policy, the CA pool
client certificates are verified against, and the minimum accepted
protocol version. Certificates and CA pools are abstracted to opaque
identifiers. -/
structure TLSConfig where
  certificates : List String
  clientAuth : ClientAuthType
  clientCAs : List String
  minVersion : Nat
  deriving DecidableEq, Repr

/-- The tls.Config literal built in run (cmd/main.go): the loaded server
certificate, RequireAndVerifyClientCert against the loaded CA pool, and
MinVersion VersionTLS13. -/
def runTLSConfig (cert : String) (caCertPool : List String) : TLSConfig :=
  { certificates := [cert]
    clientAuth := ClientAuthType.requireAndVerifyClientCert
    clientCAs := caCertPool
    minVersion := VersionTLS13 }

/-- Modelled from the spec: whether the TLS stack accepts a handshake
offering protocol version `version` and client certificate `clientCert`
under configuration `cfg`, where `verifies cert pool` abstracts the
certificate-chain verification of the stack. The stack rejects any version
below MinVersion and then applies the ClientAuth policy. -/
def handshakeAccepted (cfg : TLSConfig) (version : Nat) (clientCert : Option String)
    (verifies : String → List String → Bool) : Bool :=
  if version < cfg.minVersion then false
  else
    match cfg.clientAuth, clientCert with
    | ClientAuthType.requireAndVerifyClientCert, none => false
    | ClientAuthType.requireAndVerifyClientCert, some c => verifies c cfg.clientCAs
    | ClientAuthType.requireAnyClientCert, none => false
    | ClientAuthType.requireAnyClientCert, some _ => true
    | ClientAuthType.verifyClientCertIfGiven, none => true
    | ClientAuthType.verifyClientCertIfGiven, some c => verifies c cfg.clientCAs
    | _, _ => true

/-- The fixture of the Go unit tests: one deployment test-deployment in
test-namespace with 3 replicas, in a healthy store. -/
def testStore : Store :=
  ⟨[⟨"test-deployment", "test-namespace", some 3⟩], false, false, false⟩

example :
    GetDeploymentReplicas testStore "/deployments/test-namespace/test-deployment/replicas" =
      ⟨200, ResponseBody.replicaView "test-deployment" "test-namespace" (some 3)⟩ := by
  decide

example :
    GetDeploymentReplicas ⟨[], false, false, false⟩ "/deployments/foo/bar/replicas" =
      ⟨404, ResponseBody.apiError "Error getting deployment bar in namespace foo"⟩ := by
  decide

example :
    (SetDeploymentReplicas testStore "/deployments/test-namespace/test-deployment/replicas"
        (DecodeResult.decoded ⟨some 7⟩)).response =
      ⟨200, ResponseBody.replicaView "test-deployment" "test-namespace" (some 7)⟩ := by
  decide

example :
    (SetDeploymentReplicas testStore "/deployments/test-namespace/test-deployment/replicas"
        (DecodeResult.decoded ⟨none⟩)).response =
      ⟨400, ResponseBody.apiError "Validation error: replicas field is required"⟩ := by
  decide

example :
    (SetDeploymentReplicas testStore "/deployments/test-namespace/test-deployment/replicas"
        (DecodeResult.decoded ⟨some (-1)⟩)).response =
      ⟨400, ResponseBody.apiError
        "Validation error: replicas field must be greater than or equal to 0"⟩ := by
  decide

example :
    ListDeployments ⟨[⟨"test-deployment", "test-namespace", none⟩,
        ⟨"test-deployment2", "test-namespace2", none⟩], false, false, false⟩ none =
      ⟨200, ResponseBody.deployments [⟨"test-deployment", "test-namespace"⟩,
        ⟨"test-deployment2", "test-namespace2"⟩]⟩ := by
  decide

example :
    ListDeployments ⟨[⟨"test-deployment", "test-namespace", none⟩,
        ⟨"test-deployment2", "test-namespace2", none⟩], false, false, false⟩
        (some "test-namespace") =
      ⟨200, ResponseBody.deployments [⟨"test-deployment", "test-namespace"⟩]⟩ := by
  decide

/-- C4: every invocation of the health handler has exactly one of four
outcomes, decided in this order: upstream transport error gives 503 with
status "Error: (cause)"; unreadable response body gives 500 with
"Error reading response: (cause)"; a body that is exactly "ok" gives 200
with status "ok"; any other body gives 503 with "unhealthy: (raw body)". -/
theorem healthz_four_outcomes (cause raw : String) (hraw : raw ≠ "ok") :
    HealthzHandler.ServeHTTP (UpstreamResult.transportError cause) =
      ⟨503, ResponseBody.health ("Error: " ++ cause)⟩ ∧
    HealthzHandler.ServeHTTP (UpstreamResult.bodyUnreadable cause) =
      ⟨500, ResponseBody.health ("Error reading response: " ++ cause)⟩ ∧
    HealthzHandler.ServeHTTP (UpstreamResult.body "ok") =
      ⟨200, ResponseBody.health "ok"⟩ ∧
    HealthzHandler.ServeHTTP (UpstreamResult.body raw) =
      ⟨503, ResponseBody.health ("unhealthy: " ++ raw)⟩ := by
  refine ⟨rfl, rfl, rfl, ?_⟩
  simp [HealthzHandler.ServeHTTP, hraw]

/-- Witness for C4 at cause "connection refused" and body "deadline". -/
theorem healthz_four_outcomes_witness :
    HealthzHandler.ServeHTTP (UpstreamResult.transportError "connection refused") =
      ⟨503, ResponseBody.health ("Error: " ++ "connection refused")⟩ ∧
    HealthzHandler.ServeHTTP (UpstreamResult.bodyUnreadable "connection refused") =
      ⟨500, ResponseBody.health ("Error reading response: " ++ "connection refused")⟩ ∧
    HealthzHandler.ServeHTTP (UpstreamResult.body "ok") =
      ⟨200, ResponseBody.health "ok"⟩ ∧
    HealthzHandler.ServeHTTP (UpstreamResult.body "deadline") =
      ⟨503, ResponseBody.health ("unhealthy: " ++ "deadline")⟩ :=
  healthz_four_outcomes "connection refused" "deadline" (by decide)

/-- C9: the TLS configuration built at startup presents the loaded server
certificate, requires and verifies a client certificate against the loaded
CA pool, and sets the minimum protocol version to TLS 1.3, the strongest
supported version, so any accepted handshake is at version TLS 1.3 or
above and carries a client certificate that verifies against the pool. -/
theorem runTLSConfig_mtls (cert : String) (caCertPool : List String) :
    (runTLSConfig cert caCertPool).certificates = [cert] ∧
    (runTLSConfig cert caCertPool).clientAuth =
      ClientAuthType.requireAndVerifyClientCert ∧
    (runTLSConfig cert caCertPool).clientCAs = caCertPool ∧
    (runTLSConfig cert caCertPool).minVersion = VersionTLS13 ∧
    (∀ v ∈ supportedTLSVersions, v ≤ VersionTLS13) ∧
    (∀ version clientCert verifies,
      handshakeAccepted (runTLSConfig cert caCertPool) version clientCert verifies = true →
        VersionTLS13 ≤ version ∧
        ∃ c, clientCert = some c ∧ verifies c caCertPool = true) := by
  refine ⟨rfl, rfl, rfl, rfl, by decide, ?_⟩
  intro version clientCert verifies h
  unfold handshakeAccepted runTLSConfig at h
  by_cases hv : version < VersionTLS13
  · simp [hv] at h
  · cases clientCert with
    | none => simp [hv] at h
    | some c =>
      simp only [hv, if_false] at h
      exact ⟨Nat.le_of_not_lt hv, c, rfl, h⟩

/-- Witness for C9: TLS 1.0 is among the supported versions and below
TLS 1.3, and a concrete accepted handshake is at TLS 1.3 with a verifying
client certificate. -/
theorem runTLSConfig_mtls_witness :
    VersionTLS10 ≤ VersionTLS13 ∧
    (VersionTLS13 ≤ VersionTLS13 ∧
      ∃ c, (some "client-cert" : Option String) = some c ∧
        ((fun _ _ => true) : String → List String → Bool) c ["ca-cert"] = true) := by
  constructor
  · exact (runTLSConfig_mtls "server-cert" ["ca-cert"]).2.2.2.2.1 VersionTLS10 (by decide)
  · exact (runTLSConfig_mtls "server-cert" ["ca-cert"]).2.2.2.2.2 VersionTLS13
      (some "client-cert") (fun _ _ => true) (by decide)

/-- C1: whenever the target deployment cannot be retrieved, both the GET
and the PUT handler answer 404 with the APIError message
"Error getting deployment (deployment) in namespace (namespace)" built
from the URL-parsed values, identically for both methods. -/
theorem get_set_notfound_identical (s : Store) (path : String) (body : DecodeResult)
    (h : getDeployment s (parseNamespaceAndDeploymentNameFromURL path).1
      (parseNamespaceAndDeploymentNameFromURL path).2 = none) :
    GetDeploymentReplicas s path =
      ⟨404, ResponseBody.apiError
        ("Error getting deployment " ++ (parseNamespaceAndDeploymentNameFromURL path).2 ++
          " in namespace " ++ (parseNamespaceAndDeploymentNameFromURL path).1)⟩ ∧
    (SetDeploymentReplicas s path body).response = GetDeploymentReplicas s path := by
  simp [GetDeploymentReplicas, SetDeploymentReplicas, h]

/-- Witness for C1 on an empty store, path /deployments/foo/bar/replicas,
and a malformed PUT body. -/
theorem get_set_notfound_identical_witness :
    GetDeploymentReplicas ⟨[], false, false, false⟩ "/deployments/foo/bar/replicas" =
      ⟨404, ResponseBody.apiError "Error getting deployment bar in namespace foo"⟩ ∧
    (SetDeploymentReplicas ⟨[], false, false, false⟩ "/deployments/foo/bar/replicas"
        (DecodeResult.malformed "unexpected EOF")).response =
      GetDeploymentReplicas ⟨[], false, false, false⟩ "/deployments/foo/bar/replicas" := by
  have h := get_set_notfound_identical ⟨[], false, false, false⟩
    "/deployments/foo/bar/replicas" (DecodeResult.malformed "unexpected EOF") (by decide)
  exact ⟨by decide, h.2⟩

/-- C2: validation of a decoded ReplicaSpec checks presence before sign:
a missing replicas field yields the "required" error (and a 400 with
"Validation error: replicas field is required" from the handler when the
target exists), and a present negative value yields the
"greater than or equal to 0" error (and the corresponding 400); the
required check is decided first, with the sign examined only when the
field is present. -/
theorem validate_required_before_sign (s : Store) (path : String) (n : Int)
    (hex : ∃ d, getDeployment s (parseNamespaceAndDeploymentNameFromURL path).1
      (parseNamespaceAndDeploymentNameFromURL path).2 = some d) :
    Replicas.Validate ⟨none⟩ = some "replicas field is required" ∧
    (n < 0 → Replicas.Validate ⟨some n⟩ =
      some "replicas field must be greater than or equal to 0") ∧
    (SetDeploymentReplicas s path (DecodeResult.decoded ⟨none⟩)).response =
      ⟨400, ResponseBody.apiError "Validation error: replicas field is required"⟩ ∧
    (n < 0 → (SetDeploymentReplicas s path (DecodeResult.decoded ⟨some n⟩)).response =
      ⟨400, ResponseBody.apiError
        "Validation error: replicas field must be greater than or equal to 0"⟩) := by
  obtain ⟨d, hd⟩ := hex
  refine ⟨rfl, ?_, ?_, ?_⟩
  · intro hn
    simp [Replicas.Validate, hn]
  · simp [SetDeploymentReplicas, hd, Replicas.Validate]
  · intro hn
    simp [SetDeploymentReplicas, hd, Replicas.Validate, hn]

/-- Witness for C2 on the unit-test fixture with n = -1. -/
theorem validate_required_before_sign_witness :
    Replicas.Validate ⟨none⟩ = some "replicas field is required" ∧
    ((-1 : Int) < 0 → Replicas.Validate ⟨some (-1)⟩ =
      some "replicas field must be greater than or equal to 0") ∧
    (SetDeploymentReplicas testStore "/deployments/test-namespace/test-deployment/replicas"
        (DecodeResult.decoded ⟨none⟩)).response =
      ⟨400, ResponseBody.apiError "Validation error: replicas field is required"⟩ ∧
    ((-1 : Int) < 0 →
      (SetDeploymentReplicas testStore "/deployments/test-namespace/test-deployment/replicas"
          (DecodeResult.decoded ⟨some (-1)⟩)).response =
        ⟨400, ResponseBody.apiError
          "Validation error: replicas field must be greater than or equal to 0"⟩) :=
  validate_required_before_sign testStore
    "/deployments/test-namespace/test-deployment/replicas" (-1)
    ⟨⟨"test-deployment", "test-namespace", some 3⟩, by decide⟩

/-- C3: set-replicas performs the existence lookup before the body is
read: a request naming an unretrievable deployment answers 404 regardless
of the body, and the 400 parse-error response occurs exactly when the
target deployment exists. -/
theorem set_lookup_before_body (s : Store) (path : String) :
    (getDeployment s (parseNamespaceAndDeploymentNameFromURL path).1
        (parseNamespaceAndDeploymentNameFromURL path).2 = none →
      ∀ body, (SetDeploymentReplicas s path body).response =
        ⟨404, ResponseBody.apiError
          ("Error getting deployment " ++ (parseNamespaceAndDeploymentNameFromURL path).2 ++
            " in namespace " ++ (parseNamespaceAndDeploymentNameFromURL path).1)⟩) ∧
    (∀ cause,
      (SetDeploymentReplicas s path (DecodeResult.malformed cause)).response =
          ⟨400, ResponseBody.apiError ("Error parsing request body: " ++ cause)⟩ ↔
        ∃ d, getDeployment s (parseNamespaceAndDeploymentNameFromURL path).1
          (parseNamespaceAndDeploymentNameFromURL path).2 = some d) := by
  constructor
  · intro h body
    simp [SetDeploymentReplicas, h]
  · intro cause
    constructor
    · intro h
      cases hd : getDeployment s (parseNamespaceAndDeploymentNameFromURL path).1
          (parseNamespaceAndDeploymentNameFromURL path).2 with
      | none =>
        simp [SetDeploymentReplicas, hd] at h
      | some d => exact ⟨d, rfl⟩
    · intro ⟨d, hd⟩
      simp [SetDeploymentReplicas, hd]

/-- Witness for C3: the 404 branch on an empty store with a malformed
body, and the parse-error iff on the unit-test fixture. -/
theorem set_lookup_before_body_witness :
    (SetDeploymentReplicas ⟨[], false, false, false⟩ "/deployments/foo/bar/replicas"
        (DecodeResult.malformed "invalid character")).response =
      ⟨404, ResponseBody.apiError
        ("Error getting deployment " ++ "bar" ++ " in namespace " ++ "foo")⟩ ∧
    ((SetDeploymentReplicas testStore "/deployments/test-namespace/test-deployment/replicas"
        (DecodeResult.malformed "invalid character")).response =
      ⟨400, ResponseBody.apiError ("Error parsing request body: " ++ "invalid character")⟩) := by
  constructor
  · exact (set_lookup_before_body ⟨[], false, false, false⟩
      "/deployments/foo/bar/replicas").1 (by decide) (DecodeResult.malformed "invalid character")
  · exact ((set_lookup_before_body testStore
      "/deployments/test-namespace/test-deployment/replicas").2 "invalid character").mpr
      ⟨⟨"test-deployment", "test-namespace", some 3⟩, by decide⟩

/-- C7: a get- or set-replicas request whose path has fewer than four
slash-delimited segments resolves both namespace and deployment to the
empty string, the store lookup fails (deployment names are never empty),
and the response is the 404 not-found body with the empty values
interpolated, never a 400. -/
theorem short_path_empty_then_404 (s : Store) (path : String) (body : DecodeResult)
    (hlen : (splitPath path).length < 4)
    (hnames : ∀ d ∈ s.deployments, d.name ≠ "") :
    parseNamespaceAndDeploymentNameFromURL path = ("", "") ∧
    getDeployment s "" "" = none ∧
    GetDeploymentReplicas s path =
      ⟨404, ResponseBody.apiError "Error getting deployment  in namespace "⟩ ∧
    (SetDeploymentReplicas s path body).response =
      ⟨404, ResponseBody.apiError "Error getting deployment  in namespace "⟩ := by
  have hparse : parseNamespaceAndDeploymentNameFromURL path = ("", "") := by
    simp [parseNamespaceAndDeploymentNameFromURL, hlen]
  have hget : getDeployment s "" "" = none := by
    unfold getDeployment Store.get
    cases hgf : s.getFails with
    | true => simp
    | false =>
      simp only [if_false, Bool.false_eq_true]
      rw [List.find?_eq_none]
      intro d hd
      have := hnames d hd
      simp [this]
  refine ⟨hparse, hget, ?_, ?_⟩
  · simp [GetDeploymentReplicas, hparse, hget]
  · simp [SetDeploymentReplicas, hparse, hget]

/-- Witness for C7: the three-segment path /deployments/foo on the
unit-test fixture. -/
theorem short_path_empty_then_404_witness :
    parseNamespaceAndDeploymentNameFromURL "/deployments/foo" = ("", "") ∧
    getDeployment testStore "" "" = none ∧
    GetDeploymentReplicas testStore "/deployments/foo" =
      ⟨404, ResponseBody.apiError "Error getting deployment  in namespace "⟩ ∧
    (SetDeploymentReplicas testStore "/deployments/foo"
        (DecodeResult.decoded ⟨some 2⟩)).response =
      ⟨404, ResponseBody.apiError "Error getting deployment  in namespace "⟩ := by
  have h := short_path_empty_then_404 testStore "/deployments/foo"
    (DecodeResult.decoded ⟨some 2⟩) (by decide) (by decide)
  exact h

/-- C8: when the list operation of the store fails, the list handler answers
500 with an empty body, while every non-200 response of the get- and
set-replicas handlers carries a structured APIError body. -/
theorem list_failure_bare_500 (s t : Store) (param : Option String) (path : String)
    (body : DecodeResult) (h : s.listFails = true) :
    ListDeployments s param = ⟨500, ResponseBody.empty⟩ ∧
    ((GetDeploymentReplicas t path).status ≠ 200 →
      ∃ m, (GetDeploymentReplicas t path).body = ResponseBody.apiError m) ∧
    ((SetDeploymentReplicas t path body).response.status ≠ 200 →
      ∃ m, (SetDeploymentReplicas t path body).response.body = ResponseBody.apiError m) := by
  refine ⟨?_, ?_, ?_⟩
  · unfold ListDeployments Store.list
    by_cases hq : queryGet param ≠ ""
    · simp [hq, h]
    · simp [hq, h]
  · intro hs
    unfold GetDeploymentReplicas at hs ⊢
    cases hd : getDeployment t (parseNamespaceAndDeploymentNameFromURL path).1
        (parseNamespaceAndDeploymentNameFromURL path).2 with
    | none => simp [hd]
    | some d => simp [hd] at hs
  · intro hs
    unfold SetDeploymentReplicas at hs ⊢
    cases hd : getDeployment t (parseNamespaceAndDeploymentNameFromURL path).1
        (parseNamespaceAndDeploymentNameFromURL path).2 with
    | none => simp [hd]
    | some d =>
      cases body with
      | malformed cause => simp [hd]
      | decoded rep =>
        cases hv : rep.Validate with
        | none =>
          cases hp : t.patchFails with
          | true => simp [hd, hv, hp]
          | false => simp [hd, hv, hp] at hs
        | some msg => simp [hd, hv]

/-- Witness for C8: a store whose list call fails, and the 404 and 400
error bodies of the replica handlers on the healthy fixture. -/
theorem list_failure_bare_500_witness :
    ListDeployments ⟨[], false, true, false⟩ (some "test-namespace") =
      ⟨500, ResponseBody.empty⟩ ∧
    (∃ m, (GetDeploymentReplicas ⟨[], false, false, false⟩
      "/deployments/foo/bar/replicas").body = ResponseBody.apiError m) ∧
    (∃ m, (SetDeploymentReplicas testStore
      "/deployments/test-namespace/test-deployment/replicas"
      (DecodeResult.malformed "bad body")).response.body = ResponseBody.apiError m) := by
  have h := list_failure_bare_500 ⟨[], false, true, false⟩ ⟨[], false, false, false⟩
    (some "test-namespace") "/deployments/foo/bar/replicas"
    (DecodeResult.malformed "bad body") rfl
  have h2 := list_failure_bare_500 ⟨[], false, true, false⟩ testStore
    (some "test-namespace") "/deployments/test-namespace/test-deployment/replicas"
    (DecodeResult.malformed "bad body") rfl
  exact ⟨h.1, h.2.1 (by decide), h2.2.2 (by decide)⟩

/-- C10: set-replicas is atomic on failure: whenever the response status
is 404 or 400 the store is returned unchanged and no patch was issued, and
the patch call is issued only once the existence lookup succeeded, the
body decoded, and validation passed. -/
theorem set_atomic_on_error (s : Store) (path : String) (body : DecodeResult) :
    (((SetDeploymentReplicas s path body).response.status = 404 ∨
        (SetDeploymentReplicas s path body).response.status = 400) →
      (SetDeploymentReplicas s path body).store = s ∧
      (SetDeploymentReplicas s path body).patchInvoked = false) ∧
    ((SetDeploymentReplicas s path body).patchInvoked = true →
      (∃ d, getDeployment s (parseNamespaceAndDeploymentNameFromURL path).1
        (parseNamespaceAndDeploymentNameFromURL path).2 = some d) ∧
      ∃ rep, body = DecodeResult.decoded rep ∧ rep.Validate = none) := by
  unfold SetDeploymentReplicas
  cases hd : getDeployment s (parseNamespaceAndDeploymentNameFromURL path).1
      (parseNamespaceAndDeploymentNameFromURL path).2 with
  | none => simp [hd]
  | some d =>
    cases body with
    | malformed cause => simp [hd]
    | decoded rep =>
      cases hv : rep.Validate with
      | none =>
        cases hp : s.patchFails with
        | true => simp [hd, hv, hp]
        | false => simp [hd, hv, hp]
      | some msg => simp [hd, hv]

/-- Witness for C10: a 404 on the empty store leaves it unchanged with no
patch issued. -/
theorem set_atomic_on_error_witness :
    (SetDeploymentReplicas ⟨[], false, false, false⟩ "/deployments/foo/bar/replicas"
        (DecodeResult.decoded ⟨some 5⟩)).store = ⟨[], false, false, false⟩ ∧
    (SetDeploymentReplicas ⟨[], false, false, false⟩ "/deployments/foo/bar/replicas"
        (DecodeResult.decoded ⟨some 5⟩)).patchInvoked = false :=
  (set_atomic_on_error ⟨[], false, false, false⟩ "/deployments/foo/bar/replicas"
    (DecodeResult.decoded ⟨some 5⟩)).1 (Or.inl (by decide))

/-- C5 counterexample: the claim "if the namespace query parameter is
present, the returned sequence is exactly the subset of the deployments of the
store whose namespace equals the filter" fails when the parameter is
present with the empty value: `Query().Get` collapses it to "", the
handler takes the all-namespaces branch, and a deployment whose namespace
is "default" (not equal to the filter "") is still returned. -/
theorem listDeployments_present_empty_cex :
    queryGet (some "") = "" ∧
    ListDeployments ⟨[⟨"d", "default", none⟩], false, false, false⟩ (some "") =
      ⟨200, ResponseBody.deployments [⟨"d", "default"⟩]⟩ ∧
    ListDeployments ⟨[⟨"d", "default", none⟩], false, false, false⟩ (some "") ≠
      ⟨200, ResponseBody.deployments (generateListDeploymentsResponse
        (List.filter (fun d => d.nspace == "") [⟨"d", "default", none⟩]))⟩ := by
  decide

/-- C5 (amended): on a store whose list call succeeds, a namespace query
parameter present with a non-empty value scopes the result to exactly the
deployments of that namespace, while an absent or empty-valued parameter
spans all namespaces; in both cases the elements are projected to
name+namespace in the iteration order of the store. -/
theorem listDeployments_filter (s : Store) (param : Option String)
    (h : s.listFails = false) :
    (∀ ns, param = some ns → ns ≠ "" →
      ListDeployments s param = ⟨200, ResponseBody.deployments
        ((s.deployments.filter (fun d => d.nspace == ns)).map
          (fun d => ⟨d.name, d.nspace⟩))⟩) ∧
    (param = none ∨ param = some "" →
      ListDeployments s param = ⟨200, ResponseBody.deployments
        (s.deployments.map (fun d => ⟨d.name, d.nspace⟩))⟩) := by
  constructor
  · rintro ns rfl hns
    simp [ListDeployments, Store.list, queryGet, hns, h,
      generateListDeploymentsResponse]
  · rintro (rfl | rfl) <;>
      simp [ListDeployments, Store.list, queryGet, h, generateListDeploymentsResponse]

/-- Witness for C5 (amended) on a two-deployment store: one filtered list
and one all-namespaces list. -/
theorem listDeployments_filter_witness :
    ListDeployments ⟨[⟨"a", "ns1", none⟩, ⟨"b", "ns2", none⟩], false, false, false⟩
        (some "ns1") =
      ⟨200, ResponseBody.deployments [⟨"a", "ns1"⟩]⟩ ∧
    ListDeployments ⟨[⟨"a", "ns1", none⟩, ⟨"b", "ns2", none⟩], false, false, false⟩ none =
      ⟨200, ResponseBody.deployments [⟨"a", "ns1"⟩, ⟨"b", "ns2"⟩]⟩ := by
  have h := listDeployments_filter
    ⟨[⟨"a", "ns1", none⟩, ⟨"b", "ns2", none⟩], false, false, false⟩ (some "ns1") rfl
  have h2 := listDeployments_filter
    ⟨[⟨"a", "ns1", none⟩, ⟨"b", "ns2", none⟩], false, false, false⟩ none rfl
  refine ⟨?_, ?_⟩
  · have := h.1 "ns1" rfl (by decide)
    simpa using this
  · have := h2.2 (Or.inl rfl)
    simpa using this

/-- After patching the replicas of the object keyed by namespace+name, the
keyed lookup finds the previously found object with its replicas field
replaced. -/
theorem find?_map_patch (ns name : String) (r : Option Int) (l : List Deployment)
    (d : Deployment)
    (h : l.find? (fun x => x.nspace == ns && x.name == name) = some d) :
    (l.map (fun x =>
        if x.nspace == ns && x.name == name then { x with replicas := r } else x)).find?
      (fun x => x.nspace == ns && x.name == name) = some { d with replicas := r } := by
  induction l with
  | nil => simp at h
  | cons a t ih =>
    cases ha : (a.nspace == ns && a.name == name) with
    | true =>
      rw [List.find?_cons_of_pos t ha] at h
      injection h with h
      subst h
      have hpa : (({ a with replicas := r } : Deployment).nspace == ns &&
          ({ a with replicas := r } : Deployment).name == name) = true := ha
      simp only [List.map_cons]
      rw [if_pos ha]
      exact List.find?_cons_of_pos _ hpa
    | false =>
      have hna : ¬ (a.nspace == ns && a.name == name) = true := by simp [ha]
      rw [List.find?_cons_of_neg t hna] at h
      simp only [List.map_cons]
      rw [if_neg hna]
      have step : List.find? (fun x => x.nspace == ns && x.name == name)
          (a :: List.map (fun x =>
            if (x.nspace == ns && x.name == name) = true
            then { x with replicas := r } else x) t) =
          List.find? (fun x => x.nspace == ns && x.name == name)
            (List.map (fun x =>
              if (x.nspace == ns && x.name == name) = true
              then { x with replicas := r } else x) t) :=
        List.find?_cons_of_neg _ hna
      rw [step]
      exact ih h

/-- C6: on a healthy store holding the target deployment, a successful
set-replicas to n already reports replicas = n in its response body, and a
get-replicas on the resulting store for the same path reports replicas = n
as well. -/
theorem set_then_get_roundtrip (s : Store) (path : String) (n : Int)
    (hg : s.getFails = false) (hp : s.patchFails = false) (hn : 0 ≤ n)
    (hex : ∃ d, getDeployment s (parseNamespaceAndDeploymentNameFromURL path).1
      (parseNamespaceAndDeploymentNameFromURL path).2 = some d) :
    (SetDeploymentReplicas s path (DecodeResult.decoded ⟨some n⟩)).response =
      ⟨200, ResponseBody.replicaView (parseNamespaceAndDeploymentNameFromURL path).2
        (parseNamespaceAndDeploymentNameFromURL path).1 (some n)⟩ ∧
    GetDeploymentReplicas
        (SetDeploymentReplicas s path (DecodeResult.decoded ⟨some n⟩)).store path =
      ⟨200, ResponseBody.replicaView (parseNamespaceAndDeploymentNameFromURL path).2
        (parseNamespaceAndDeploymentNameFromURL path).1 (some n)⟩ := by
  obtain ⟨d, hd⟩ := hex
  have hv : Replicas.Validate ⟨some n⟩ = none := by
    simp [Replicas.Validate, Int.not_lt.mpr hn]
  have hfind : s.deployments.find?
      (fun x => x.nspace == (parseNamespaceAndDeploymentNameFromURL path).1 &&
        x.name == (parseNamespaceAndDeploymentNameFromURL path).2) = some d := by
    have := hd
    unfold getDeployment Store.get at this
    simpa [hg] using this
  have hset : (SetDeploymentReplicas s path (DecodeResult.decoded ⟨some n⟩)).store =
      s.patch (parseNamespaceAndDeploymentNameFromURL path).1
        (parseNamespaceAndDeploymentNameFromURL path).2 (some n) := by
    simp [SetDeploymentReplicas, hd, hv, hp]
  refine ⟨?_, ?_⟩
  · simp [SetDeploymentReplicas, hd, hv, hp]
  · rw [hset]
    have hget2 : getDeployment
        (s.patch (parseNamespaceAndDeploymentNameFromURL path).1
          (parseNamespaceAndDeploymentNameFromURL path).2 (some n))
        (parseNamespaceAndDeploymentNameFromURL path).1
        (parseNamespaceAndDeploymentNameFromURL path).2 =
        some { d with replicas := some n } := by
      unfold getDeployment Store.get Store.patch
      simpa [hg] using find?_map_patch (parseNamespaceAndDeploymentNameFromURL path).1
        (parseNamespaceAndDeploymentNameFromURL path).2 (some n) s.deployments d hfind
    simp [GetDeploymentReplicas, hget2]

/-- Witness for C6 on the unit-test fixture, setting 7 replicas on a
deployment that previously had 3. -/
theorem set_then_get_roundtrip_witness :
    (SetDeploymentReplicas testStore "/deployments/test-namespace/test-deployment/replicas"
        (DecodeResult.decoded ⟨some 7⟩)).response =
      ⟨200, ResponseBody.replicaView
        (parseNamespaceAndDeploymentNameFromURL
          "/deployments/test-namespace/test-deployment/replicas").2
        (parseNamespaceAndDeploymentNameFromURL
          "/deployments/test-namespace/test-deployment/replicas").1 (some 7)⟩ ∧
    GetDeploymentReplicas
        (SetDeploymentReplicas testStore
          "/deployments/test-namespace/test-deployment/replicas"
          (DecodeResult.decoded ⟨some 7⟩)).store
        "/deployments/test-namespace/test-deployment/replicas" =
      ⟨200, ResponseBody.replicaView
        (parseNamespaceAndDeploymentNameFromURL
          "/deployments/test-namespace/test-deployment/replicas").2
        (parseNamespaceAndDeploymentNameFromURL
          "/deployments/test-namespace/test-deployment/replicas").1 (some 7)⟩ :=
  set_then_get_roundtrip testStore "/deployments/test-namespace/test-deployment/replicas"
    7 rfl rfl (by decide)
    ⟨⟨"test-deployment", "test-namespace", some 3⟩, by decide⟩

end K8sApi
